import Mathlib

/-!
Verification of the vscord presence server core against its specification.

Each definition below is a shallow embedding of a function of the TypeScript
source (src/server/services/pubsub.ts, messageHandler.ts, channelHandler.ts,
src/server/database.ts, src/shared/types.ts).  JavaScript numbers are
modelled as `Int`/`Nat`, strings as `String`, `undefined`/`null` option
fields as `Option`, Maps and database tables as association lists, and the
Redis broker as an explicit store threaded through each handler.  JavaScript
truthiness tests on strings and numbers are translated exactly (the empty
string and the number 0 are falsy).
-/

/-- Visibility-mode enumeration, from shared/types.ts `VisibilityMode`. -/
inductive VisibilityMode
  | everyone
  | followers
  | following
  | closeFriends
  | invisible
deriving DecidableEq, Repr

/-- Row of the `preferences` table, from shared/types.ts `DbPreferences`. -/
structure DbPreferences where
  user_id : Int
  visibility_mode : VisibilityMode
  share_project : Bool
  share_language : Bool
  share_activity : Bool
deriving DecidableEq, Repr

/-- Row of the `users` table, from shared/types.ts `DbUser`. -/
structure DbUser where
  github_id : Int
  username : String
  avatar : String
  followers : List Int
  following : List Int
  close_friends : List Int
  last_seen : Nat
  created_at : Nat
deriving DecidableEq, Repr

/-- Custom status record, from shared/types.ts `CustomStatus`. -/
structure CustomStatus where
  text : String
  emoji : Option String
  expiresAt : Option Nat
deriving DecidableEq, Repr

/-- Per-connection state, from messageHandler.ts `ClientData` (the `ws`
back-pointer is the key of the `clients` map and is kept outside). -/
structure ClientData where
  username : String
  githubId : Option Int
  avatar : Option String
  status : String
  activity : String
  project : String
  language : String
  followers : List Int
  following : List Int
  resumeToken : Option String
  customStatus : Option CustomStatus
deriving DecidableEq, Repr

/-- DatabaseService.canUserSee (database.ts).  The JavaScript guard
`if (!viewerId) return false` is falsy for both `null` and `0`, translated
exactly.  The unused `targetId` parameter of the source is kept. -/
def canUserSee (viewerId : Option Int) (targetId : Int)
    (targetPrefs : Option DbPreferences) (targetUser : DbUser) : Bool :=
  match viewerId with
  | none => false
  | some v =>
    if v = 0 then false
    else
      match (targetPrefs.map (fun p => p.visibility_mode)).getD .everyone with
      | .invisible => false
      | .everyone => true
      | .followers => targetUser.followers.contains v
      | .following => targetUser.following.contains v
      | .closeFriends => targetUser.close_friends.contains v

/-- MessageHandler.canClientSee (messageHandler.ts): the mutual-follow test
used when building the initial sync.  `!viewer.githubId` is falsy for
`undefined` and for `0`. -/
def canClientSee (viewer target : ClientData) : Bool :=
  match viewer.githubId, target.githubId with
  | some vg, some tg =>
    if vg = 0 ∨ tg = 0 then false
    else
      viewer.following.contains tg || viewer.followers.contains tg ||
      target.following.contains vg || target.followers.contains vg
  | _, _ => false

/-- Modelled from the claim's words, for comparison with `canUserSee`:
deny under `invisible`, allow under `everyone`, membership tests for the
three list modes, and a guest (no identity-id) allowed exactly when the
mode is `everyone`. -/
def claimVisibilityRule (viewerId : Option Int) (mode : VisibilityMode)
    (targetUser : DbUser) : Bool :=
  match viewerId with
  | none => decide (mode = .everyone)
  | some v =>
    match mode with
    | .invisible => false
    | .everyone => true
    | .followers => targetUser.followers.contains v
    | .following => targetUser.following.contains v
    | .closeFriends => targetUser.close_friends.contains v

/-- The visibility rule the code actually implements, stated
denotationally: identical to the claim for identified viewers, but a
viewer without an identity-id is always denied. -/
def amendedVisibilityRule (viewerId : Option Int) (mode : VisibilityMode)
    (targetUser : DbUser) : Bool :=
  match viewerId with
  | none => false
  | some v =>
    match mode with
    | .invisible => false
    | .everyone => true
    | .followers => targetUser.followers.contains v
    | .following => targetUser.following.contains v
    | .closeFriends => targetUser.close_friends.contains v

/-- Example target user for the C4 counterexample. -/
def c4TargetUser : DbUser :=
  { github_id := 10, username := "alice", avatar := "", followers := [7]
    following := [], close_friends := [], last_seen := 0, created_at := 0 }

/-- Example preferences with visibility `everyone` for the C4 counterexample. -/
def c4EveryonePrefs : DbPreferences :=
  { user_id := 10, visibility_mode := .everyone, share_project := true
    share_language := true, share_activity := true }

/-- C4 counterexample: the claim's rule admits a guest viewer (no
identity-id) when the target's mode is `everyone`, but the code's
`canUserSee` returns false for every guest, whatever the mode. -/
theorem canUserSee_denies_guest_in_everyone_mode :
    claimVisibilityRule none .everyone c4TargetUser = true ∧
    canUserSee none 10 (some c4EveryonePrefs) c4TargetUser = false :=
  ⟨rfl, rfl⟩

/-- C4 amended: for every viewer whose identity-id is not the JavaScript
falsy number 0, `canUserSee` decides exactly the claimed mode rules with
guests always denied, the mode being read from the target's preferences
with default `everyone`. -/
theorem canUserSee_eq_amendedVisibilityRule (viewerId : Option Int)
    (targetId : Int) (targetPrefs : Option DbPreferences) (targetUser : DbUser)
    (hv : viewerId ≠ some 0) :
    canUserSee viewerId targetId targetPrefs targetUser =
      amendedVisibilityRule viewerId
        ((targetPrefs.map (fun p => p.visibility_mode)).getD .everyone)
        targetUser := by
  cases viewerId with
  | none => rfl
  | some v =>
    have hv0 : ¬ v = 0 := by
      intro h
      exact hv (by rw [h])
    cases targetPrefs with
    | none =>
      simp only [canUserSee, amendedVisibilityRule, Option.map_none, Option.getD_none,
        if_neg hv0]
    | some p =>
      simp only [canUserSee, amendedVisibilityRule, Option.map_some, Option.getD_some,
        if_neg hv0]

/-- Witness for the C4 amended theorem at a concrete identified viewer. -/
theorem canUserSee_eq_amendedVisibilityRule_witness :
    (some (7 : Int) ≠ some (0 : Int)) ∧
    canUserSee (some 7) 10 (some c4EveryonePrefs) c4TargetUser =
      amendedVisibilityRule (some 7)
        (((some c4EveryonePrefs).map (fun p => p.visibility_mode)).getD .everyone)
        c4TargetUser :=
  ⟨by decide, canUserSee_eq_amendedVisibilityRule (some 7) 10 (some c4EveryonePrefs)
    c4TargetUser (by decide)⟩

/-- One local subscription entry, from pubsub.ts `Subscription`: a socket
handle (modelled as a number) and the viewer's user id. -/
structure Subscription where
  ws : Nat
  userId : String
deriving DecidableEq, Repr

/-- PubSubService.handleMessage (pubsub.ts): fan-out of a message arriving
on a broker channel to every locally subscribed socket whose readyState is
1 (OPEN).  Returns the list of (socket, raw message) writes performed.  The
source applies no visibility check here. -/
def handleMessage (subscriptions : List (String × List Subscription))
    (readyState : Nat → Nat) (channel : String) (message : String) :
    List (Nat × String) :=
  match (subscriptions.find? (fun p => p.1 == channel)).map (fun p => p.2) with
  | none => []
  | some subs =>
    (subs.filter (fun sub => readyState sub.ws == 1)).map
      (fun sub => (sub.ws, message))

/-- Example target preferences (mode `followers`, empty follower list) for C1. -/
def c1AlicePrefs : DbPreferences :=
  { user_id := 10, visibility_mode := .followers, share_project := true
    share_language := true, share_activity := true }

/-- Example target user for C1: alice has no followers. -/
def c1AliceUser : DbUser :=
  { github_id := 10, username := "alice", avatar := "", followers := []
    following := [7], close_friends := [], last_seen := 0, created_at := 0 }

/-- Example subscription table for C1: bob's socket 1 is subscribed to
alice's presence channel (as happens at login, where the friend set is
followers together with following, with no visibility filtering). -/
def c1Subscriptions : List (String × List Subscription) :=
  [("presence:alice", [{ ws := 1, userId := "bob" }])]

/-- C1: the Privacy Filter (`canUserSee`) denies viewer bob (id 7, not in
alice's followers while alice's mode is `followers`), yet the fan-out step
writes the `u` message published on `presence:alice` to bob's socket: the
egress path performs no privacy check. -/
theorem handleMessage_sends_to_denied_viewer :
    canUserSee (some 7) 10 (some c1AlicePrefs) c1AliceUser = false ∧
    handleMessage c1Subscriptions (fun _ => 1) "presence:alice"
      "u-message-from-alice" = [(1, "u-message-from-alice")] :=
  ⟨rfl, rfl⟩

/-- Resume-session record, from pubsub.ts `SessionData`. -/
structure SessionData where
  userId : String
  username : String
  githubId : Option Int
  connectedAt : Nat
deriving DecidableEq, Repr

/-- The `session:{token}` keyspace of the Ephemeral Broker, token to record
(TTL expiry is outside the model: every listed record is unexpired). -/
abbrev SessionStore := List (String × SessionData)

/-- PubSubService.setResumeToken (pubsub.ts): Redis SET overwrites the key. -/
def setResumeToken (store : SessionStore) (token : String)
    (session : SessionData) : SessionStore :=
  (token, session) :: store.filter (fun p => p.1 != token)

/-- PubSubService.getResumeToken (pubsub.ts). -/
def getResumeToken (store : SessionStore) (token : String) :
    Option SessionData :=
  (store.find? (fun p => p.1 == token)).map (fun p => p.2)

/-- PubSubService.deleteResumeToken (pubsub.ts).  Its doc comment reads
"Delete resume token (used after successful resume)", but no caller in the
server invokes it. -/
def deleteResumeToken (store : SessionStore) (token : String) : SessionStore :=
  store.filter (fun p => p.1 != token)

/-- The resume branch of MessageHandler.handleLogin together with the
broker writes of setupClient (messageHandler.ts): if the supplied token
resolves to a record whose username matches the declared one, the login
succeeds as a resume and setupClient stores a fresh Resume Record under
`newToken`.  Returns the updated store on success, `none` when the branch
falls through.  The presented token is never deleted. -/
def handleLoginResume (store : SessionStore) (username : String)
    (resumeToken : String) (newToken : String) (now : Nat) :
    Option SessionStore :=
  match getResumeToken store resumeToken with
  | some session =>
    if session.username = username then
      some (setResumeToken store newToken
        { userId := match session.githubId with
            | some g => toString g
            | none => username
          username := username
          githubId := session.githubId
          connectedAt := now })
    else none
  | none => none

/-- Example broker store for C5: one unexpired Resume Record for alice. -/
def c5Store : SessionStore :=
  [("tok1", { userId := "alice", username := "alice", githubId := none,
              connectedAt := 0 })]

/-- The store after alice's first successful resume in the C5 scenario. -/
def c5StoreAfter : SessionStore :=
  (handleLoginResume c5Store "alice" "tok1" "tok2" 5).getD []

/-- C5: a successful resume does not consume the presented token.  After
alice resumes with `tok1`, the record for `tok1` is still in the broker
(only a fresh `tok2` record was added), and a second resume presenting the
same `tok1` succeeds within the TTL — the token is not one-use as claimed
and as `deleteResumeToken`'s own doc comment intends. -/
theorem handleLoginResume_leaves_token_usable :
    (handleLoginResume c5Store "alice" "tok1" "tok2" 5).isSome = true ∧
    getResumeToken c5StoreAfter "tok1" =
      some { userId := "alice", username := "alice", githubId := none,
             connectedAt := 0 } ∧
    (handleLoginResume c5StoreAfter "alice" "tok1" "tok3" 9).isSome = true :=
  ⟨rfl, rfl, rfl⟩

/-- Delta update message `u`, from shared/types.ts `DeltaUpdateMessage`
(the `cs` field distinguishes absent from the null sentinel). -/
structure DeltaUpdateMessage where
  id : String
  s : Option String
  a : Option String
  p : Option String
  l : Option String
  cs : Option (Option CustomStatus)
deriving DecidableEq, Repr

/-- Online message `o`, from shared/types.ts `UserOnlineMessage`. -/
structure UserOnlineMessage where
  id : String
  a : Option String
  s : String
  act : String
  p : Option String
  l : Option String
deriving DecidableEq, Repr

/-- A message published to a `presence:{username}` topic of the broker. -/
inductive PubEvent
  | delta (username : String) (msg : DeltaUpdateMessage)
  | online (username : String) (msg : UserOnlineMessage)
  | offline (username : String) (ts : Nat)
deriving DecidableEq, Repr

/-- Client `statusUpdate` message, from shared/types.ts
`StatusUpdateMessage`.  The `s`/`a` fields are `StatusType`/`ActivityType`
labels at the declared type; they are carried here as strings because the
handler compares them as strings. -/
structure StatusUpdateMessage where
  s : Option String
  a : Option String
  p : Option String
  l : Option String
deriving DecidableEq, Repr

/-- The Status Cache record written by cacheUserStatus (pubsub.ts): the
union of all four current fields. -/
structure CacheWrite where
  username : String
  status : String
  activity : String
  project : String
  language : String
deriving DecidableEq, Repr

/-- Result of processing one `statusUpdate`: the new connection state, the
delta published to the user's topic (if any), and the Status Cache write
(if any). -/
structure StatusUpdateResult where
  client : ClientData
  published : Option DeltaUpdateMessage
  cache : Option CacheWrite
deriving DecidableEq, Repr

/-- The `message.s && message.s !== client.status` branch of
handleStatusUpdate: JavaScript truthiness makes an empty string falsy. -/
def stepS (c : ClientData) (m : StatusUpdateMessage) :
    ClientData × Option String :=
  match m.s with
  | some v => if v ≠ "" ∧ v ≠ c.status then ({ c with status := v }, some v)
              else (c, none)
  | none => (c, none)

/-- The `message.a && message.a !== client.activity` branch. -/
def stepA (c : ClientData) (m : StatusUpdateMessage) :
    ClientData × Option String :=
  match m.a with
  | some v => if v ≠ "" ∧ v ≠ c.activity then ({ c with activity := v }, some v)
              else (c, none)
  | none => (c, none)

/-- The `message.p !== undefined && message.p !== client.project` branch
(no truthiness test: an empty string counts). -/
def stepP (c : ClientData) (m : StatusUpdateMessage) :
    ClientData × Option String :=
  match m.p with
  | some v => if v ≠ c.project then ({ c with project := v }, some v)
              else (c, none)
  | none => (c, none)

/-- The `message.l !== undefined && message.l !== client.language` branch. -/
def stepL (c : ClientData) (m : StatusUpdateMessage) :
    ClientData × Option String :=
  match m.l with
  | some v => if v ≠ c.language then ({ c with language := v }, some v)
              else (c, none)
  | none => (c, none)

/-- MessageHandler.handleStatusUpdate (messageHandler.ts) for a logged-in
connection: apply the four field checks in source order, then publish the
delta and write the Status Cache only when something changed. -/
def handleStatusUpdate (c : ClientData) (m : StatusUpdateMessage) :
    StatusUpdateResult :=
  let r1 := stepS c m
  let r2 := stepA r1.1 m
  let r3 := stepP r2.1 m
  let r4 := stepL r3.1 m
  let c4 := r4.1
  if r1.2.isSome || r2.2.isSome || r3.2.isSome || r4.2.isSome then
    { client := c4
      published := some { id := c.username, s := r1.2, a := r2.2, p := r3.2,
                          l := r4.2, cs := none }
      cache := some { username := c.username, status := c4.status,
                      activity := c4.activity, project := c4.project,
                      language := c4.language } }
  else
    { client := c4, published := none, cache := none }

/-- The field a delta carries: the supplied value exactly when it differs
from the current one. -/
def deltaField (supplied : Option String) (current : String) : Option String :=
  match supplied with
  | some v => if v = current then none else some v
  | none => none

/-- The `s` branch updates exactly the status field and reports the
supplied value when it differs, provided the supplied label is not the
(falsy, never valid) empty string. -/
theorem stepS_spec (c : ClientData) (m : StatusUpdateMessage)
    (hs : m.s ≠ some "") :
    stepS c m = ({ c with status := m.s.getD c.status },
                 deltaField m.s c.status) := by
  obtain ⟨un, gid, av, st, act, pr, la, fo, fg, rt, cst⟩ := c
  cases hm : m.s with
  | none => simp [stepS, deltaField, hm]
  | some v =>
    have hv : v ≠ "" := by
      intro h
      exact hs (by rw [hm, h])
    by_cases hvs : v = st
    · simp [stepS, deltaField, hm, hvs]
    · simp [stepS, deltaField, hm, hvs, hv]

/-- The `a` branch updates exactly the activity field. -/
theorem stepA_spec (c : ClientData) (m : StatusUpdateMessage)
    (ha : m.a ≠ some "") :
    stepA c m = ({ c with activity := m.a.getD c.activity },
                 deltaField m.a c.activity) := by
  obtain ⟨un, gid, av, st, act, pr, la, fo, fg, rt, cst⟩ := c
  cases hm : m.a with
  | none => simp [stepA, deltaField, hm]
  | some v =>
    have hv : v ≠ "" := by
      intro h
      exact ha (by rw [hm, h])
    by_cases hva : v = act
    · simp [stepA, deltaField, hm, hva]
    · simp [stepA, deltaField, hm, hva, hv]

/-- The `p` branch updates exactly the project field (no truthiness test). -/
theorem stepP_spec (c : ClientData) (m : StatusUpdateMessage) :
    stepP c m = ({ c with project := m.p.getD c.project },
                 deltaField m.p c.project) := by
  obtain ⟨un, gid, av, st, act, pr, la, fo, fg, rt, cst⟩ := c
  cases hm : m.p with
  | none => simp [stepP, deltaField, hm]
  | some v =>
    by_cases hvp : v = pr
    · simp [stepP, deltaField, hm, hvp]
    · simp [stepP, deltaField, hm, hvp]

/-- The `l` branch updates exactly the language field. -/
theorem stepL_spec (c : ClientData) (m : StatusUpdateMessage) :
    stepL c m = ({ c with language := m.l.getD c.language },
                 deltaField m.l c.language) := by
  obtain ⟨un, gid, av, st, act, pr, la, fo, fg, rt, cst⟩ := c
  cases hm : m.l with
  | none => simp [stepL, deltaField, hm]
  | some v =>
    by_cases hvl : v = la
    · simp [stepL, deltaField, hm, hvl]
    · simp [stepL, deltaField, hm, hvl]

/-- A delta field is absent exactly when the field was not supplied or was
supplied with its current value. -/
theorem deltaField_eq_none (supplied : Option String) (current : String) :
    deltaField supplied current = none ↔
      (supplied = none ∨ supplied = some current) := by
  cases supplied with
  | none => simp [deltaField]
  | some v =>
    by_cases hv : v = current
    · simp [deltaField, hv]
    · simp [deltaField, hv]

/-- C3: a `statusUpdate` from a logged-in connection updates the connection
state to the supplied values, publishes a `u` message carrying exactly the
identifier plus the supplied fields that differ from the current state
(nothing when no supplied field differs), and writes the Status Cache
exactly when it publishes.  The hypotheses record that status and activity
labels of the protocol are never the empty string (JavaScript truthiness
would drop an empty label). -/
theorem handleStatusUpdate_delta_minimal (c : ClientData)
    (m : StatusUpdateMessage) (hs : m.s ≠ some "") (ha : m.a ≠ some "") :
    (handleStatusUpdate c m).client =
      { c with status := m.s.getD c.status, activity := m.a.getD c.activity,
               project := m.p.getD c.project, language := m.l.getD c.language } ∧
    (handleStatusUpdate c m).published =
      (if (m.s = none ∨ m.s = some c.status) ∧ (m.a = none ∨ m.a = some c.activity) ∧
          (m.p = none ∨ m.p = some c.project) ∧ (m.l = none ∨ m.l = some c.language)
       then none
       else some { id := c.username, s := deltaField m.s c.status,
                   a := deltaField m.a c.activity, p := deltaField m.p c.project,
                   l := deltaField m.l c.language, cs := none }) ∧
    ((handleStatusUpdate c m).cache = none ↔
      (handleStatusUpdate c m).published = none) := by
  have e1 := stepS_spec c m hs
  have e2 : stepA { c with status := m.s.getD c.status } m =
      ({ c with status := m.s.getD c.status, activity := m.a.getD c.activity },
       deltaField m.a c.activity) := by
    simpa using stepA_spec { c with status := m.s.getD c.status } m ha
  have e3 : stepP { c with status := m.s.getD c.status, activity := m.a.getD c.activity } m =
      ({ c with status := m.s.getD c.status, activity := m.a.getD c.activity,
                project := m.p.getD c.project },
       deltaField m.p c.project) := by
    simpa using stepP_spec
      { c with status := m.s.getD c.status, activity := m.a.getD c.activity } m
  have e4 : stepL { c with status := m.s.getD c.status, activity := m.a.getD c.activity,
                           project := m.p.getD c.project } m =
      ({ c with status := m.s.getD c.status, activity := m.a.getD c.activity,
                project := m.p.getD c.project, language := m.l.getD c.language },
       deltaField m.l c.language) := by
    simpa using stepL_spec
      { c with status := m.s.getD c.status, activity := m.a.getD c.activity,
               project := m.p.getD c.project } m
  refine ⟨?_, ?_, ?_⟩
  · simp only [handleStatusUpdate, e1, e2, e3, e4]
    split <;> rfl
  · simp only [handleStatusUpdate, e1, e2, e3, e4]
    by_cases hP : (m.s = none ∨ m.s = some c.status) ∧
        (m.a = none ∨ m.a = some c.activity) ∧
        (m.p = none ∨ m.p = some c.project) ∧
        (m.l = none ∨ m.l = some c.language)
    · have h1 : deltaField m.s c.status = none :=
        (deltaField_eq_none _ _).mpr hP.1
      have h2 : deltaField m.a c.activity = none :=
        (deltaField_eq_none _ _).mpr hP.2.1
      have h3 : deltaField m.p c.project = none :=
        (deltaField_eq_none _ _).mpr hP.2.2.1
      have h4 : deltaField m.l c.language = none :=
        (deltaField_eq_none _ _).mpr hP.2.2.2
      simp [h1, h2, h3, h4, hP]
    · have h' : deltaField m.s c.status ≠ none ∨ deltaField m.a c.activity ≠ none ∨
          deltaField m.p c.project ≠ none ∨ deltaField m.l c.language ≠ none := by
        by_contra hc
        push_neg at hc
        exact hP ⟨(deltaField_eq_none _ _).mp hc.1,
          (deltaField_eq_none _ _).mp hc.2.1,
          (deltaField_eq_none _ _).mp hc.2.2.1,
          (deltaField_eq_none _ _).mp hc.2.2.2⟩
      have hB : ((deltaField m.s c.status).isSome ||
          (deltaField m.a c.activity).isSome ||
          (deltaField m.p c.project).isSome ||
          (deltaField m.l c.language).isSome) = true := by
        rcases h' with h | h | h | h <;>
          simp [Option.isSome_iff_ne_none, h]
      simp [hB, hP]
  · simp only [handleStatusUpdate, e1, e2, e3, e4]
    split <;> simp

/-- Witness for C3 at a concrete connection and message: alice, currently
Online/Idle on project "p1", sends activity Coding and the unchanged
project "p1"; the published delta carries the identifier and the activity
only, and the state takes the new activity. -/
theorem handleStatusUpdate_delta_minimal_witness :
    ((some "Coding" : Option String) ≠ some "" ∧
     (some "Coding" : Option String) ≠ some "") ∧
    ((handleStatusUpdate
        { username := "alice", githubId := some 10, avatar := none,
          status := "Online", activity := "Idle", project := "p1",
          language := "ts", followers := [], following := [],
          resumeToken := none, customStatus := none }
        { s := none, a := some "Coding", p := some "p1", l := none }).client =
      { username := "alice", githubId := some 10, avatar := none,
        status := "Online", activity := "Coding", project := "p1",
        language := "ts", followers := [], following := [],
        resumeToken := none, customStatus := none } ∧
     (handleStatusUpdate
        { username := "alice", githubId := some 10, avatar := none,
          status := "Online", activity := "Idle", project := "p1",
          language := "ts", followers := [], following := [],
          resumeToken := none, customStatus := none }
        { s := none, a := some "Coding", p := some "p1", l := none }).published =
       some { id := "alice", s := none, a := some "Coding", p := none,
              l := none, cs := none } ∧
     ((handleStatusUpdate
        { username := "alice", githubId := some 10, avatar := none,
          status := "Online", activity := "Idle", project := "p1",
          language := "ts", followers := [], following := [],
          resumeToken := none, customStatus := none }
        { s := none, a := some "Coding", p := some "p1", l := none }).cache = none ↔
      (handleStatusUpdate
        { username := "alice", githubId := some 10, avatar := none,
          status := "Online", activity := "Idle", project := "p1",
          language := "ts", followers := [], following := [],
          resumeToken := none, customStatus := none }
        { s := none, a := some "Coding", p := some "p1", l := none }).published = none)) := by
  constructor
  · exact ⟨by decide, by decide⟩
  · have h := handleStatusUpdate_delta_minimal
      { username := "alice", githubId := some 10, avatar := none,
        status := "Online", activity := "Idle", project := "p1",
        language := "ts", followers := [], following := [],
        resumeToken := none, customStatus := none }
      { s := none, a := some "Coding", p := some "p1", l := none }
      (by decide) (by decide)
    refine ⟨?_, ?_, h.2.2⟩
    · exact h.1
    · rw [h.2.1]
      decide

/-- Process-local state of the MessageHandler: the `clients` map (socket to
connection state) and the `userSessions` multi-window map (username to
Window Set, a duplicate-free list of sockets). -/
structure HandlerState where
  clients : List (Nat × ClientData)
  userSessions : List (String × List Nat)
deriving DecidableEq, Repr

/-- Lookup of `clients.get(ws)`. -/
def lookupClient (s : HandlerState) (ws : Nat) : Option ClientData :=
  (s.clients.find? (fun p => p.1 == ws)).map (fun p => p.2)

/-- Lookup of `userSessions.get(username)`. -/
def lookupSessions (s : HandlerState) (username : String) : Option (List Nat) :=
  (s.userSessions.find? (fun p => p.1 == username)).map (fun p => p.2)

/-- Result of MessageHandler.handleDisconnect: the new state, the events
published to the broker, and the identity-id whose last-seen was persisted
(when any). -/
structure DisconnectResult where
  state : HandlerState
  events : List PubEvent
  lastSeenWrite : Option Int
deriving DecidableEq, Repr

/-- MessageHandler.handleDisconnect (messageHandler.ts): remove the socket
from its username's Window Set; when the set is now empty (or was absent,
`!sessions`), drop the entry, publish the offline event and persist
last-seen for GitHub users; always remove the socket from `clients`. -/
def handleDisconnect (s : HandlerState) (ws : Nat) (now : Nat) :
    DisconnectResult :=
  match lookupClient s ws with
  | none => { state := s, events := [], lastSeenWrite := none }
  | some client =>
    let clients' := s.clients.filter (fun p => p.1 != ws)
    match lookupSessions s client.username with
    | none =>
      { state := { clients := clients'
                   userSessions :=
                     s.userSessions.filter (fun p => p.1 != client.username) }
        events := [.offline client.username now]
        lastSeenWrite := client.githubId }
    | some sessions =>
      let remaining := sessions.filter (fun w => w != ws)
      if remaining.isEmpty then
        { state := { clients := clients'
                     userSessions :=
                       s.userSessions.filter (fun p => p.1 != client.username) }
          events := [.offline client.username now]
          lastSeenWrite := client.githubId }
      else
        { state := { clients := clients'
                     userSessions :=
                       s.userSessions.map (fun p =>
                         if p.1 == client.username then (p.1, remaining) else p) }
          events := []
          lastSeenWrite := none }

/-- Client `prefsUpdate` payload, from shared/types.ts
`Partial<UserPreferences>`. -/
structure PrefsPayload where
  visibilityMode : Option VisibilityMode
  shareProjectName : Option Bool
  shareLanguage : Option Bool
  shareActivity : Option Bool
deriving DecidableEq, Repr

/-- DatabaseService.updatePreferences (database.ts): the handler passes
each field as `supplied ?? default`, so the upsert always overwrites the
row with the supplied value or the column default. -/
def updatePreferences (table : List (Int × DbPreferences)) (userId : Int)
    (m : PrefsPayload) : List (Int × DbPreferences) :=
  (userId,
   { user_id := userId
     visibility_mode := m.visibilityMode.getD .everyone
     share_project := m.shareProjectName.getD true
     share_language := m.shareLanguage.getD true
     share_activity := m.shareActivity.getD true }) ::
    table.filter (fun p => p.1 != userId)

/-- MessageHandler.handlePrefsUpdate (messageHandler.ts): ignore the
message unless the connection is a logged-in GitHub user; persist the
preferences; publish an offline event exactly when the supplied visibility
mode is `invisible`.  No other event is ever published here. -/
def handlePrefsUpdate (client : Option ClientData)
    (table : List (Int × DbPreferences)) (m : PrefsPayload) (now : Nat) :
    List (Int × DbPreferences) × List PubEvent :=
  match client with
  | none => (table, [])
  | some c =>
    match c.githubId with
    | none => (table, [])
    | some gid =>
      if gid = 0 then (table, [])
      else
        let table' := updatePreferences table gid m
        if m.visibilityMode = some .invisible then
          (table', [.offline c.username now])
        else
          (table', [])

/-- Lookup of a preferences row by user id. -/
def lookupPrefs (table : List (Int × DbPreferences)) (userId : Int) :
    Option DbPreferences :=
  (table.find? (fun p => p.1 == userId)).map (fun p => p.2)

/-- Example connection for the C2 counterexample scenario. -/
def c2AliceClient : ClientData :=
  { username := "alice", githubId := some 10, avatar := none,
    status := "Online", activity := "Idle", project := "", language := "",
    followers := [], following := [], resumeToken := none,
    customStatus := none }

/-- C2 counterexample: a preferences update to `invisible` publishes an
offline (`x`) event for alice although no Connection was removed — the
handler does not touch any Window Set, so the event is emitted without the
Window Set transitioning from non-empty to empty, refuting the claimed
"only if". -/
theorem offline_published_without_window_transition :
    (handlePrefsUpdate (some c2AliceClient) []
      { visibilityMode := some .invisible, shareProjectName := none,
        shareLanguage := none, shareActivity := none } 5).2 =
      [PubEvent.offline "alice" 5] :=
  rfl

/-- C2 amended: on transport close the offline event is published exactly
when the Window Set for the user's name becomes empty after removing the
closing socket (other remaining windows mask the loss); additionally, a
preferences update that sets visibility `invisible` on a logged-in GitHub
connection always publishes an offline event, independent of Window Sets. -/
theorem offline_event_gating (s : HandlerState) (ws now : Nat)
    (c : ClientData) (l : List Nat) (h1 : lookupClient s ws = some c)
    (h2 : lookupSessions s c.username = some l) (c2 : ClientData) (gid : Int)
    (table : List (Int × DbPreferences)) (m : PrefsPayload) (now2 : Nat)
    (hg : c2.githubId = some gid) (hg0 : gid ≠ 0)
    (hm : m.visibilityMode = some .invisible) :
    (handleDisconnect s ws now).events =
      (if (l.filter (fun w => w != ws)).isEmpty
       then [PubEvent.offline c.username now] else []) ∧
    (handlePrefsUpdate (some c2) table m now2).2 =
      [PubEvent.offline c2.username now2] := by
  constructor
  · simp only [handleDisconnect, h1, h2]
    by_cases he : (l.filter (fun w => w != ws)).isEmpty = true
    · simp [he]
    · simp [he]
  · simp [handlePrefsUpdate, hg, hg0, hm]

/-- Witness for the C2 amended theorem: alice has two windows (sockets 1
and 2); closing socket 1 publishes nothing because window 2 remains, and a
separate invisible preferences update publishes the offline event. -/
theorem offline_event_gating_witness :
    (lookupClient
        { clients := [(1, c2AliceClient), (2, c2AliceClient)],
          userSessions := [("alice", [1, 2])] } 1 = some c2AliceClient ∧
     lookupSessions
        { clients := [(1, c2AliceClient), (2, c2AliceClient)],
          userSessions := [("alice", [1, 2])] } c2AliceClient.username =
        some [1, 2] ∧
     c2AliceClient.githubId = some 10 ∧ (10 : Int) ≠ 0) ∧
    ((handleDisconnect
        { clients := [(1, c2AliceClient), (2, c2AliceClient)],
          userSessions := [("alice", [1, 2])] } 1 3).events =
      (if (([1, 2] : List Nat).filter (fun w => w != 1)).isEmpty
       then [PubEvent.offline c2AliceClient.username 3] else []) ∧
     (handlePrefsUpdate (some c2AliceClient) []
        { visibilityMode := some .invisible, shareProjectName := none,
          shareLanguage := none, shareActivity := none } 5).2 =
      [PubEvent.offline c2AliceClient.username 5]) :=
  ⟨⟨by decide, by decide, by decide, by decide⟩,
   offline_event_gating
     { clients := [(1, c2AliceClient), (2, c2AliceClient)],
       userSessions := [("alice", [1, 2])] } 1 3 c2AliceClient [1, 2]
     (by decide) (by decide) c2AliceClient 10 []
     { visibilityMode := some .invisible, shareProjectName := none,
       shareLanguage := none, shareActivity := none } 5
     (by decide) (by decide) (by decide)⟩

/-- Example stored preferences for the C8 counterexample: bob is invisible. -/
def c8InvisibleRow : DbPreferences :=
  { user_id := 10, visibility_mode := .invisible, share_project := true,
    share_language := true, share_activity := true }

/-- C8 counterexample: with bob's stored mode `invisible`, a preferences
update setting mode `everyone` (a transition out of invisible) persists the
new mode but publishes no event at all — in particular no online (`o`)
snapshot, which the claim requires. -/
theorem no_online_event_on_leaving_invisible :
    (handlePrefsUpdate (some c2AliceClient) [(10, c8InvisibleRow)]
      { visibilityMode := some .everyone, shareProjectName := none,
        shareLanguage := none, shareActivity := none } 9).2 = [] ∧
    (lookupPrefs [(10, c8InvisibleRow)] 10).map
      (fun p => p.visibility_mode) = some .invisible ∧
    (lookupPrefs
      (handlePrefsUpdate (some c2AliceClient) [(10, c8InvisibleRow)]
        { visibilityMode := some .everyone, shareProjectName := none,
          shareLanguage := none, shareActivity := none } 9).1 10).map
      (fun p => p.visibility_mode) = some .everyone :=
  ⟨rfl, rfl, rfl⟩

/-- C8 amended: a preferences update from a logged-in GitHub connection
publishes exactly one offline event when it sets visibility `invisible`,
and publishes nothing (no online snapshot included) in every other case. -/
theorem handlePrefsUpdate_events (c : ClientData) (gid : Int)
    (table : List (Int × DbPreferences)) (m : PrefsPayload) (now : Nat)
    (hg : c.githubId = some gid) (hg0 : gid ≠ 0) :
    (handlePrefsUpdate (some c) table m now).2 =
      (if m.visibilityMode = some .invisible
       then [PubEvent.offline c.username now] else []) := by
  by_cases hm : m.visibilityMode = some VisibilityMode.invisible
  · simp [handlePrefsUpdate, hg, hg0, hm]
  · simp [handlePrefsUpdate, hg, hg0, hm]

/-- Witness for the C8 amended theorem at a concrete non-invisible update. -/
theorem handlePrefsUpdate_events_witness :
    (c2AliceClient.githubId = some 10 ∧ (10 : Int) ≠ 0) ∧
    (handlePrefsUpdate (some c2AliceClient) []
      { visibilityMode := some .followers, shareProjectName := none,
        shareLanguage := none, shareActivity := none } 4).2 =
      (if (some VisibilityMode.followers : Option VisibilityMode) =
          some .invisible
       then [PubEvent.offline c2AliceClient.username 4] else []) :=
  ⟨⟨by decide, by decide⟩,
   handlePrefsUpdate_events c2AliceClient 10 []
     { visibilityMode := some .followers, shareProjectName := none,
       shareLanguage := none, shareActivity := none } 4 (by decide) (by decide)⟩

/-- Client `ss` message, from shared/types.ts `SetStatusMessage`. -/
structure SetStatusMessage where
  text : String
  emoji : Option String
  expiresIn : Option Nat
deriving DecidableEq, Repr

/-- MessageHandler.handleSetStatus (messageHandler.ts): truncate the text
to 128 units, compute the expiry deadline (`expiresIn` is falsy for 0),
install the custom status on the connection, and publish a delta carrying
only the identifier and the custom status. -/
def handleSetStatus (c : ClientData) (m : SetStatusMessage) (now : Nat) :
    ClientData × List PubEvent :=
  let cs : CustomStatus :=
    { text := m.text.take 128
      emoji := m.emoji
      expiresAt :=
        match m.expiresIn with
        | some e => if e = 0 then none else some (now + e)
        | none => none }
  ({ c with customStatus := some cs },
   [.delta c.username
      { id := c.username, s := none, a := none, p := none, l := none,
        cs := some (some cs) }])

/-- MessageHandler.handleClearStatus (messageHandler.ts): reset the
connection's custom status and publish a delta with the null sentinel. -/
def handleClearStatus (c : ClientData) : ClientData × List PubEvent :=
  ({ c with customStatus := none },
   [.delta c.username
      { id := c.username, s := none, a := none, p := none, l := none,
        cs := some none }])

/-- Example connection for the C9 counterexample: alice already carries a
custom status before the set/clear pair runs. -/
def c9Client : ClientData :=
  { username := "alice", githubId := some 10, avatar := none,
    status := "Online", activity := "Idle", project := "", language := "",
    followers := [], following := [], resumeToken := none,
    customStatus := some { text := "busy", emoji := none, expiresAt := none } }

/-- C9 counterexample: starting from a connection that already has the
custom status "busy", setCustomStatus("brb") followed by clearCustomStatus
leaves the field empty, not the pre-set "busy": the pair is not a
round-trip when a custom status was already installed. -/
theorem set_clear_loses_previous_custom_status :
    ((handleClearStatus (handleSetStatus c9Client
        { text := "brb", emoji := none, expiresIn := none } 0).1).1).customStatus ≠
      c9Client.customStatus := by
  decide

/-- C9 amended: setCustomStatus followed by clearCustomStatus always leaves
the connection with no custom status and touches no other field, so the
pair restores the pre-set state exactly when the pre-set custom status was
empty. -/
theorem set_then_clear_resets (c : ClientData) (m : SetStatusMessage)
    (now : Nat) :
    (handleClearStatus (handleSetStatus c m now).1).1.customStatus = none ∧
    ((handleClearStatus (handleSetStatus c m now).1).1 = c ↔
      c.customStatus = none) := by
  refine ⟨rfl, ?_, ?_⟩
  · intro h
    have h' : ({ c with customStatus := none } : ClientData) = c := h
    exact (congrArg ClientData.customStatus h').symm
  · intro h
    obtain ⟨un, gid, av, st, act, pr, la, fo, fg, rt, cst⟩ := c
    have h' : cst = none := h
    subst h'
    rfl

/-- MAX_CHANNEL_MEMBERS, from shared/types.ts. -/
def MAX_CHANNEL_MEMBERS : Nat := 50

/-- INVITE_CODE_LENGTH, from shared/types.ts. -/
def INVITE_CODE_LENGTH : Nat := 6

/-- Row of the `channel_members` table, from shared/types.ts
`DbChannelMember`. -/
structure DbChannelMember where
  channel_id : String
  user_id : Int
  username : String
  role : String
  joined_at : Nat
deriving DecidableEq, Repr

/-- Row of the `channels` table, from shared/types.ts `DbChannel`. -/
structure DbChannel where
  id : String
  name : String
  owner_id : Int
  invite_code : String
  created_at : Nat
deriving DecidableEq, Repr

/-- The member count of a channel: `SELECT COUNT(*) FROM channel_members
WHERE channel_id = $1`.  The (channel_id, user_id) primary key makes every
row a distinct member. -/
def memberCount (table : List DbChannelMember) (channelId : String) : Nat :=
  (table.filter (fun r => r.channel_id == channelId)).length

/-- DatabaseService.addChannelMember (database.ts): refuse when the channel
already holds MAX_CHANNEL_MEMBERS rows; otherwise insert, where the
`ON CONFLICT (channel_id, user_id) DO NOTHING` makes a duplicate key a
no-op that still reports success. -/
def addChannelMember (table : List DbChannelMember) (channelId : String)
    (userId : Int) (username : String) (role : String) (now : Nat) :
    List DbChannelMember × Bool :=
  if MAX_CHANNEL_MEMBERS ≤ memberCount table channelId then
    (table, false)
  else if table.any (fun r => r.channel_id == channelId && r.user_id == userId) then
    (table, true)
  else
    (table ++ [{ channel_id := channelId, user_id := userId,
                 username := username, role := role, joined_at := now }], true)

/-- DatabaseService.removeChannelMember (database.ts): conditional delete
on the composite key. -/
def removeChannelMember (table : List DbChannelMember) (channelId : String)
    (userId : Int) : List DbChannelMember :=
  table.filter (fun r => !(r.channel_id == channelId && r.user_id == userId))

/-- C6: the 50-member bound is an invariant.  A join attempt on a channel
already at MAX_CHANNEL_MEMBERS returns failure and leaves the table
untouched, and both membership operations preserve the bound on every
channel. -/
theorem channel_capacity_invariant (table : List DbChannelMember)
    (channelId : String) (userId : Int) (username role : String) (now : Nat)
    (hInv : ∀ ch, memberCount table ch ≤ MAX_CHANNEL_MEMBERS) :
    (memberCount table channelId = MAX_CHANNEL_MEMBERS →
      addChannelMember table channelId userId username role now = (table, false)) ∧
    (∀ ch, memberCount
        (addChannelMember table channelId userId username role now).1 ch ≤
      MAX_CHANNEL_MEMBERS) ∧
    (∀ ch, memberCount (removeChannelMember table channelId userId) ch ≤
      MAX_CHANNEL_MEMBERS) := by
  refine ⟨?_, ?_, ?_⟩
  · intro hfull
    simp [addChannelMember, hfull]
  · intro ch
    by_cases hfull : MAX_CHANNEL_MEMBERS ≤ memberCount table channelId
    · have heq : addChannelMember table channelId userId username role now =
          (table, false) := by
        simp [addChannelMember, hfull]
      rw [heq]
      exact hInv ch
    · by_cases hdup : (table.any
          (fun r => r.channel_id == channelId && r.user_id == userId)) = true
      · have heq : addChannelMember table channelId userId username role now =
            (table, true) := by
          simp [addChannelMember, hfull, hdup]
        rw [heq]
        exact hInv ch
      · have heq : addChannelMember table channelId userId username role now =
            (table ++ [{ channel_id := channelId, user_id := userId,
                         username := username, role := role,
                         joined_at := now }], true) := by
          simp [addChannelMember, hfull, hdup]
        rw [heq]
        by_cases hch : ch = channelId
        · subst hch
          have hlt : memberCount table ch < MAX_CHANNEL_MEMBERS :=
            Nat.lt_of_not_le hfull
          simp only [memberCount, List.filter_append, List.length_append] at *
          have hone : (List.filter (fun r => r.channel_id == ch)
              [({ channel_id := ch, user_id := userId, username := username,
                  role := role, joined_at := now } : DbChannelMember)]).length ≤ 1 := by
            simp only [List.filter_cons, List.filter_nil]
            split <;> simp
          omega
        · have hne : (channelId == ch) = false := by
            rw [beq_eq_false_iff_ne]
            intro hcc
            exact hch hcc.symm
          simp only [memberCount, List.filter_append, List.length_append]
          have hz : (List.filter (fun r => r.channel_id == ch)
              [({ channel_id := channelId, user_id := userId,
                  username := username, role := role,
                  joined_at := now } : DbChannelMember)]).length = 0 := by
            simp only [List.filter_cons, List.filter_nil]
            split
            · simp_all
            · simp
          rw [hz]
          have hh := hInv ch
          simp only [memberCount] at hh
          omega
  · intro ch
    have hsub : memberCount (removeChannelMember table channelId userId) ch ≤
        memberCount table ch := by
      simp only [memberCount, removeChannelMember]
      exact ((List.filter_sublist _).filter _).length_le
    exact le_trans hsub (hInv ch)

/-- A concrete channel-members table holding exactly 50 distinct members
of channel "c1", used by the C6 witness. -/
def c6FullTable : List DbChannelMember :=
  (List.range 50).map (fun i =>
    { channel_id := "c1", user_id := (i : Int), username := "u",
      role := "member", joined_at := 0 })

/-- Witness for C6 at the concrete full channel "c1": the invariant holds
of the table, so a join of user 99 returns failure without inserting, and
the bound is preserved by both operations. -/
theorem channel_capacity_invariant_witness :
    (∀ ch, memberCount c6FullTable ch ≤ MAX_CHANNEL_MEMBERS) ∧
    ((memberCount c6FullTable "c1" = MAX_CHANNEL_MEMBERS →
      addChannelMember c6FullTable "c1" 99 "w" "member" 7 =
        (c6FullTable, false)) ∧
     (∀ ch, memberCount
        (addChannelMember c6FullTable "c1" 99 "w" "member" 7).1 ch ≤
       MAX_CHANNEL_MEMBERS) ∧
     (∀ ch, memberCount (removeChannelMember c6FullTable "c1" 99) ch ≤
       MAX_CHANNEL_MEMBERS)) := by
  have hInv : ∀ ch, memberCount c6FullTable ch ≤ MAX_CHANNEL_MEMBERS := by
    intro ch
    have h1 : memberCount c6FullTable ch ≤ c6FullTable.length :=
      List.length_filter_le _ _
    have h2 : c6FullTable.length = 50 := rfl
    rw [h2] at h1
    exact h1
  exact ⟨hInv, channel_capacity_invariant c6FullTable "c1" 99 "w" "member" 7 hInv⟩

/-- The confusable-free invite-code alphabet of
DatabaseService.generateInviteCode (database.ts): uppercase letters and
digits with 0, O, I and 1 omitted. -/
def inviteAlphabet : List Char := "ABCDEFGHJKLMNPQRSTUVWXYZ23456789".toList

/-- DatabaseService.generateInviteCode (database.ts): INVITE_CODE_LENGTH
draws of `chars.charAt(Math.floor(Math.random() * chars.length))`.  The
random stream is a parameter `rand`; `Math.floor(Math.random() * 32)` is a
value of `Fin 32`, and the alphabet has exactly 32 characters. -/
def generateInviteCode (rand : Nat → Fin 32) : String :=
  ⟨(List.range INVITE_CODE_LENGTH).map
    (fun i => inviteAlphabet.getD (rand i).val 'A')⟩

/-- The invite codes stored in a channels table are pairwise distinct
(Postgres `invite_code VARCHAR(10) UNIQUE`). -/
def distinctInviteCodes (channels : List DbChannel) : Prop :=
  channels.Pairwise (fun a b => a.invite_code ≠ b.invite_code)

/-- State owned by the channel part of the State Store. -/
structure ChannelDb where
  channels : List DbChannel
  members : List DbChannelMember
deriving DecidableEq, Repr

/-- DatabaseService.createChannel (database.ts): generate one invite code,
INSERT the channel row (the UNIQUE constraint on invite_code raises on
collision, which the source does not catch or retry), then add the owner
as admin member.  `newId` stands for the generated UUID primary key. -/
def createChannel (db : ChannelDb) (name : String) (ownerId : Int)
    (ownerUsername : String) (rand : Nat → Fin 32) (newId : String)
    (now : Nat) : Except String (ChannelDb × DbChannel) :=
  let inviteCode := generateInviteCode rand
  if db.channels.any (fun ch => ch.invite_code == inviteCode) then
    .error "unique_violation"
  else
    let channel : DbChannel :=
      { id := newId, name := name, owner_id := ownerId,
        invite_code := inviteCode, created_at := now }
    .ok ({ channels := db.channels ++ [channel],
           members := (addChannelMember db.members newId ownerId
             ownerUsername "admin" now).1 },
         channel)

/-- Every generated invite code has length 6 and draws all its characters
from the confusable-free alphabet. -/
theorem generateInviteCode_shape (rand : Nat → Fin 32) :
    (generateInviteCode rand).length = INVITE_CODE_LENGTH ∧
    (generateInviteCode rand).toList.all
      (fun c => inviteAlphabet.contains c) = true := by
  constructor
  · simp [generateInviteCode, String.length]
  · rw [List.all_eq_true]
    intro c hc
    have hc' : c ∈ (List.range INVITE_CODE_LENGTH).map
        (fun i => inviteAlphabet.getD (rand i).val 'A') := hc
    rw [List.mem_map] at hc'
    obtain ⟨i, _, rfl⟩ := hc'
    have hlt : (rand i).val < inviteAlphabet.length := by
      have h32 : inviteAlphabet.length = 32 := rfl
      rw [h32]
      exact (rand i).isLt
    rw [List.getD_eq_get _ _ hlt]
    exact List.elem_iff.mpr (List.get_mem _ _ hlt)

/-- Example channels table for the C7 counterexample: the code "AAAAAA" is
already taken. -/
def c7Db : ChannelDb :=
  { channels := [{ id := "c1", name := "team", owner_id := 1,
                   invite_code := "AAAAAA", created_at := 0 }],
    members := [{ channel_id := "c1", user_id := 1, username := "alice",
                  role := "admin", joined_at := 0 }] }

/-- C7 counterexample: with a random stream whose first six draws are all
0, the single generated code is "AAAAAA"; since that code is already
stored, channel creation raises the unique-constraint error and stores
nothing — it does not retry with fresh draws as the claim states. -/
theorem createChannel_fails_on_collision :
    generateInviteCode (fun _ => (0 : Fin 32)) = "AAAAAA" ∧
    createChannel c7Db "other" 2 "bob" (fun _ => (0 : Fin 32)) "c2" 5 =
      Except.error "unique_violation" :=
  ⟨rfl, rfl⟩

/-- C7 amended: every generated invite code is exactly 6 characters from
the confusable-free alphabet, and stored codes stay pairwise distinct —
not through retrying, but because a colliding insert fails with an error
and stores nothing, while a non-colliding insert stores the fresh code. -/
theorem createChannel_invite_codes (db : ChannelDb) (name : String)
    (ownerId : Int) (ownerUsername : String) (rand : Nat → Fin 32)
    (newId : String) (now : Nat) (h : distinctInviteCodes db.channels) :
    ((generateInviteCode rand).length = INVITE_CODE_LENGTH ∧
     (generateInviteCode rand).toList.all
       (fun c => inviteAlphabet.contains c) = true) ∧
    (match createChannel db name ownerId ownerUsername rand newId now with
     | .ok (db', ch) =>
       distinctInviteCodes db'.channels ∧
       ch.invite_code = generateInviteCode rand
     | .error _ =>
       db.channels.any
         (fun ch => ch.invite_code == generateInviteCode rand) = true) := by
  refine ⟨generateInviteCode_shape rand, ?_⟩
  by_cases hcol : db.channels.any
      (fun ch => ch.invite_code == generateInviteCode rand) = true
  · simp only [createChannel, if_pos hcol]
    exact hcol
  · simp only [createChannel, if_neg hcol]
    refine ⟨?_, by trivial⟩
    rw [distinctInviteCodes, List.pairwise_append]
    refine ⟨h, List.pairwise_singleton _ _, ?_⟩
    intro a ha b hb
    have hb' : b = { id := newId, name := name, owner_id := ownerId,
                     invite_code := generateInviteCode rand,
                     created_at := now } := by
      simpa using hb
    subst hb'
    intro habs
    apply hcol
    rw [List.any_eq_true]
    exact ⟨a, ha, by simp [habs]⟩

/-- Witness for the C7 amended theorem: creation on an empty store with
the all-zero random stream succeeds and stores the single code "AAAAAA". -/
theorem createChannel_invite_codes_witness :
    distinctInviteCodes ({ channels := [], members := [] } : ChannelDb).channels ∧
    (((generateInviteCode (fun _ => (0 : Fin 32))).length = INVITE_CODE_LENGTH ∧
      (generateInviteCode (fun _ => (0 : Fin 32))).toList.all
        (fun c => inviteAlphabet.contains c) = true) ∧
     (match createChannel { channels := [], members := [] } "team" 1 "alice"
         (fun _ => (0 : Fin 32)) "c1" 0 with
      | .ok (db', ch) =>
        distinctInviteCodes db'.channels ∧
        ch.invite_code = generateInviteCode (fun _ => (0 : Fin 32))
      | .error _ =>
        ({ channels := [], members := [] } : ChannelDb).channels.any
          (fun ch => ch.invite_code ==
            generateInviteCode (fun _ => (0 : Fin 32))) = true)) :=
  ⟨by simp [distinctInviteCodes],
   createChannel_invite_codes { channels := [], members := [] } "team" 1
     "alice" (fun _ => (0 : Fin 32)) "c1" 0 (by simp [distinctInviteCodes])⟩

/-- JavaScript `toUpperCase()` as used on invite codes: upper-case each
character (invite codes are ASCII, where this agrees with the runtime). -/
def toUpperCase (s : String) : String := ⟨s.toList.map Char.toUpper⟩

/-- DatabaseService.getChannelByInviteCode (database.ts): the supplied code
is upper-cased before the unique-index lookup. -/
def getChannelByInviteCode (channels : List DbChannel) (inviteCode : String) :
    Option DbChannel :=
  channels.find? (fun ch => ch.invite_code == toUpperCase inviteCode)

/-- C10: invite-code lookup is case-insensitive in the supplied string.
For a stored channel whose (unique) code is the upper-casing of the
supplied string — for example its lowercase form — the lookup resolves to
that channel. -/
theorem getChannelByInviteCode_case_insensitive (channels : List DbChannel)
    (ch : DbChannel) (s : String) (hmem : ch ∈ channels)
    (hdist : distinctInviteCodes channels)
    (hcode : toUpperCase s = ch.invite_code) :
    getChannelByInviteCode channels s = some ch := by
  induction channels with
  | nil => cases hmem
  | cons a l ih =>
    rw [distinctInviteCodes, List.pairwise_cons] at hdist
    rcases List.mem_cons.mp hmem with hce | hmem'
    · subst hce
      have hpa : (ch.invite_code == toUpperCase s) = true := by
        rw [hcode]
        exact beq_self_eq_true _
      unfold getChannelByInviteCode
      exact List.find?_cons_of_pos _ hpa
    · have hne : ¬((fun c => c.invite_code == toUpperCase s) a = true) := by
        simp only [beq_iff_eq, hcode]
        exact hdist.1 ch hmem'
      unfold getChannelByInviteCode
      rw [@List.find?_cons_of_neg _ (fun c => c.invite_code == toUpperCase s)
        a l hne]
      exact ih hmem' hdist.2

/-- Witness for C10: the stored code "ABC234" is found from the lowercase
form "abc234". -/
theorem getChannelByInviteCode_case_insensitive_witness :
    (({ id := "c1", name := "team", owner_id := 1, invite_code := "ABC234",
        created_at := 0 } : DbChannel) ∈
      [({ id := "c1", name := "team", owner_id := 1, invite_code := "ABC234",
          created_at := 0 } : DbChannel)] ∧
     distinctInviteCodes
       [{ id := "c1", name := "team", owner_id := 1, invite_code := "ABC234",
          created_at := 0 }] ∧
     toUpperCase "abc234" =
       ({ id := "c1", name := "team", owner_id := 1, invite_code := "ABC234",
          created_at := 0 } : DbChannel).invite_code) ∧
    getChannelByInviteCode
      [{ id := "c1", name := "team", owner_id := 1, invite_code := "ABC234",
         created_at := 0 }] "abc234" =
      some { id := "c1", name := "team", owner_id := 1,
             invite_code := "ABC234", created_at := 0 } :=
  ⟨⟨List.mem_singleton.mpr rfl, by simp [distinctInviteCodes], by decide⟩,
   getChannelByInviteCode_case_insensitive _ _ "abc234"
     (List.mem_singleton.mpr rfl) (by simp [distinctInviteCodes]) (by decide)⟩
